import Mathlib

/-!
Shallow embedding of the alfred-search-rs cache-synchronization tool
(src/config.rs, src/db_client.rs, src/gh_client.rs, src/main.rs), together
with theorems settling the specification claims about it.

Conventions of the embedding:
* Timestamps and durations are integers; for the staleness scheduler the
  unit is minutes, for the rate-limit computation the unit is arbitrary
  (the code subtracts two timestamps and compares with zero).
* The sqlite tables `repos` and `crates` are lists of name strings kept
  duplicate-free by the upsert write path.
* Streams are embedded as lists consumed in order; the repository page
  stream of `GHClient::stream_repositories` is produced with explicit fuel
  since the Rust loop's termination depends on the remote collaborator.
* Fallible operations return `Except String` mirroring `anyhow::Result`.
-/

namespace AlfredSearch

/-! ## Staleness scheduler (src/config.rs) -/

/-- Embedding of `GhAlfredConfig::should_update_db` (src/config.rs:21-26).
The state is `last_update_start_time : Option Int` (minutes on an abstract
clock); `now` is the value `chrono::Local::now()` would return.  The source
computes `time - chrono::Local::now() > chrono::Duration::minutes(30)`,
with the stored timestamp on the left of the subtraction. -/
def should_update_db (last_update_start_time : Option Int) (now : Int) : Bool :=
  match last_update_start_time with
  | none => true
  | some time => decide (time - now > 30)

/-- Modelled from the spec: the scheduler contract `should_refresh(state)`,
true iff `last_sync_started_at` is empty or `now - last_sync_started_at`
exceeds 30 minutes.  This is the comparison the source's own doc comment
(cache "older than 30mn") and spec section 4.1 describe; it is kept
separate from `should_update_db` so the two can be compared. -/
def should_refresh (last_sync_started_at : Option Int) (now : Int) : Bool :=
  match last_sync_started_at with
  | none => true
  | some time => decide (now - time > 30)

/-- Embedding of `GhAlfredConfig::update_last_update_start_time`
(src/config.rs:29-32): sets the timestamp to now (persistence elided). -/
def update_last_update_start_time (now : Int) : Option Int :=
  some now

/-- Embedding of `GhAlfredConfig::reset_last_update_start_time`
(src/config.rs:35-38): clears the timestamp (persistence elided). -/
def reset_last_update_start_time : Option Int :=
  none

/-! ## SQL LIKE matching (semantics of the queries in src/db_client.rs)

`DBClient::search_repositories` and `DBClient::search_crates` run
`SELECT name FROM ... WHERE name like ? LIMIT 5` with the parameter
`%filter%` built by `format!("%{}%", filter)` without escaping.  Sqlite's
`LIKE` treats `%` as "any sequence of characters" and `_` as "any single
character", and compares the ASCII letters A-Z case-insensitively. -/

/-- ASCII lower-casing, the folding sqlite's default LIKE applies. -/
def asciiLower (c : Char) : Char :=
  if c.toNat ≥ 65 ∧ c.toNat ≤ 90 then Char.ofNat (c.toNat + 32) else c

/-- Fuel-indexed sqlite LIKE matching of a pattern against a string, both
as character lists: `%` matches any sequence, `_` matches any single
character, and other characters match up to ASCII case folding.  Every
recursive call shortens the pattern or the string, so fuel
`pattern.length + string.length + 1` always suffices. -/
def likeMatchAux : Nat → List Char → List Char → Bool
  | 0, _, _ => false
  | _ + 1, [], [] => true
  | _ + 1, [], _ :: _ => false
  | fuel + 1, p :: ps, s =>
    if p = '%' then
      likeMatchAux fuel ps s ||
        (match s with
         | [] => false
         | _ :: cs => likeMatchAux fuel (p :: ps) cs)
    else
      match s with
      | [] => false
      | c :: cs =>
        if p = '_' then likeMatchAux fuel ps cs
        else asciiLower p = asciiLower c && likeMatchAux fuel ps cs

/-- Sqlite LIKE matching with sufficient fuel. -/
def likeMatch (pattern s : List Char) : Bool :=
  likeMatchAux (pattern.length + s.length + 1) pattern s

/-- The predicate a row's `name` must satisfy to be returned for `filter`:
LIKE matching against the pattern `%filter%` built by the source. -/
def nameLike (filter name : String) : Bool :=
  likeMatch ('%' :: filter.data ++ ['%']) name.data

/-- Modelled from the spec: `key contains filter as a substring,
case-sensitive` (spec section 4.4 step 1), literal containment with no
wildcard interpretation.  Kept separate from `nameLike` for comparison. -/
def containsSubstr (hay needle : String) : Bool :=
  go needle.data hay.data
where
  /-- needle is a contiguous case-sensitive sublist at some position -/
  go (needle : List Char) : List Char → Bool
    | [] => needle.isEmpty
    | c :: cs => needle.isPrefixOf (c :: cs) || go needle cs

/-! ## Cache store reads (src/db_client.rs) -/

/-- Embedding of `DBClient::search_repositories` (src/db_client.rs:36-49):
rows of the `repos` table whose name LIKE-matches `%filter%`, capped by
`LIMIT 5`; the table is a name list in row order. -/
def search_repositories (repos : List String) (filter : String) : List String :=
  (repos.filter (fun name => nameLike filter name)).take 5

/-- Embedding of `DBClient::search_crates` (src/db_client.rs:52-65):
identical query against the `crates` table. -/
def search_crates (crates : List String) (filter : String) : List String :=
  (crates.filter (fun name => nameLike filter name)).take 5

/-! ## Cache store writes (src/db_client.rs) -/

/-- Semantics of one `INSERT OR REPLACE INTO repos(name) VALUES (?)` row
write on a table whose primary key is `name`: when the key exists the row
is replaced (the row is just its key, so the table is unchanged), else the
row is appended. -/
def insert_or_replace (store : List String) (name : String) : List String :=
  if name ∈ store then store else store ++ [name]

/-- Embedding of `DBClient::save_repositories` (src/db_client.rs:68-86):
returns early with no database write when the batch is empty, otherwise
executes one `INSERT OR REPLACE` statement covering the whole batch.
The transaction can fail, which the environment decides through the
oracle `persist_fails`; the boolean in the result records whether a
database write was performed. -/
def save_repositories (persist_fails : List String → Bool)
    (store : List String) (repos : List String) :
    Except String (List String × Bool) :=
  if repos.isEmpty then Except.ok (store, false)
  else if persist_fails repos then Except.error "failed to save repositories"
  else Except.ok (repos.foldl insert_or_replace store, true)

/-- Embedding of `DBClient::clear` (src/db_client.rs:29-33): the single
statement `DELETE FROM repos`, acting on the two-table store. -/
structure DB where
  repos : List String
  crates : List String
deriving DecidableEq, Repr

/-- Embedding of `DBClient::clear` (src/db_client.rs:29-33). -/
def DBClient.clear (db : DB) : DB :=
  { db with repos := [] }

/-- Outcome of one run of the sync pipeline: the final `repos` table, the
number of `DBUpdateEvent` progress signals yielded, the number of database
write transactions executed, and the error the run aborted with, if any. -/
structure SyncRun where
  store : List String
  events : Nat
  writes : Nat
  error : Option String
deriving DecidableEq, Repr

/-- Embedding of `DBClient::save_all_repositories` (src/db_client.rs:88-100):
consumes the page stream (a list of `anyhow::Result<Vec<String>>` items) in
order; a stream error or a failed `save_repositories` aborts the run, and a
`DBUpdateEvent` is yielded after each `save_repositories` call that
returns ok. -/
def save_all_repositories (persist_fails : List String → Bool)
    (store : List String) :
    List (Except String (List String)) → SyncRun
  | [] => ⟨store, 0, 0, none⟩
  | Except.error e :: _ => ⟨store, 0, 0, some e⟩
  | Except.ok repos :: rest =>
    match save_repositories persist_fails store repos with
    | Except.error e => ⟨store, 0, 0, some e⟩
    | Except.ok (store2, wrote) =>
      let r := save_all_repositories persist_fails store2 rest
      ⟨r.store, r.events + 1, r.writes + (if wrote then 1 else 0), r.error⟩

/-! ## Paginated fetcher (src/gh_client.rs) -/

/-- Embedding of the `RepoPageRead` struct (src/gh_client.rs:31-39). -/
structure RepoPageRead where
  repos : List String
  end_cursor : Option String
  delay : Option Int
deriving DecidableEq, Repr

/-- Embedding of the rate-limit delay computation inside
`GHClient::fetch_repositories` (src/gh_client.rs:142-149): no delay while
`remaining - cost > 0`; otherwise `reset_at - Utc::now()`, which
`chrono::Duration::to_std` turns into `None` exactly when negative. -/
def compute_delay (remaining cost reset_at now : Int) : Option Int :=
  if remaining - cost > 0 then none
  else
    let delay := reset_at - now
    if 0 ≤ delay then some delay else none

/-- Duration actually slept by `GHClient::stream_repositories`
(src/gh_client.rs:181-187) for a computed delay: `tokio::time::sleep` runs
only in the `Some` branch. -/
def wait_time (remaining cost reset_at now : Int) : Int :=
  match compute_delay remaining cost reset_at now with
  | none => 0
  | some d => d

/-- Embedding of the loop of `GHClient::stream_repositories`
(src/gh_client.rs:159-190) as a list of yielded stream items.  The remote
collaborator is the function `fetch` from the `after` cursor to a page
read; `fuel` bounds the number of iterations, since the Rust loop
terminates only when the collaborator eventually returns an empty cursor.
Each iteration yields `repos` first and only then inspects `end_cursor`,
breaking when it is `none`; a fetch error ends the stream with that
error. -/
def stream_repositories (fetch : Option String → Except String RepoPageRead) :
    Nat → Option String → List (Except String (List String))
  | 0, _ => []
  | fuel + 1, after =>
    match fetch after with
    | Except.error e => [Except.error e]
    | Except.ok page =>
      Except.ok page.repos ::
        (match page.end_cursor with
         | none => []
         | some c => stream_repositories fetch fuel (some c))

/-! ## Query resolvers and commands (src/main.rs) -/

/-- Result of a resolver run: the items printed, and whether the live
remote search collaborator was invoked. -/
structure ResolveRun where
  results : List String
  liveCalled : Bool
deriving DecidableEq, Repr

/-- Embedding of `search_gh_repositories` (src/main.rs:74-92): cache-first
lookup in the `repos` table, falling back to the live GitHub search
collaborator (whose reply is the parameter `live`) exactly when the cache
query returns no row. -/
def search_gh_repositories (repos : List String) (live : List String)
    (filter : String) : ResolveRun :=
  let repositories := search_repositories repos filter
  if repositories.isEmpty then ⟨live, true⟩ else ⟨repositories, false⟩

/-- Embedding of `search_crate` (src/main.rs:95-113): cache-first lookup
in the `crates` table, falling back to the live crates.io search
collaborator exactly when the cache query returns no row. -/
def search_crate (crates : List String) (live : List String)
    (filter : String) : ResolveRun :=
  let cs := search_crates crates filter
  if cs.isEmpty then ⟨live, true⟩ else ⟨cs, false⟩

/-- State touched by the `clear-db` command: the two-table store and the
config record's timestamp. -/
structure AppState where
  db : DB
  last_update_start_time : Option Int
deriving DecidableEq, Repr

/-- Embedding of `clear_db` (src/main.rs:66-71): resets the config
record's `last_update_start_time` and then runs `DBClient::clear`. -/
def clear_db (s : AppState) : AppState :=
  { db := DBClient.clear s.db,
    last_update_start_time := reset_last_update_start_time }

/-! ## Helper lemmas about the store write path -/

/-- Membership after one upsert row write. -/
theorem mem_insert_or_replace (s : List String) (n x : String) :
    x ∈ insert_or_replace s n ↔ x ∈ s ∨ x = n := by
  unfold insert_or_replace
  by_cases h : n ∈ s
  · simp only [if_pos h]
    refine ⟨Or.inl, ?_⟩
    rintro (hx | rfl)
    · exact hx
    · exact h
  · simp [if_neg h]

/-- Membership after a whole batch of upsert row writes. -/
theorem mem_foldl_insert_or_replace (p : List String) (s : List String) (x : String) :
    x ∈ p.foldl insert_or_replace s ↔ x ∈ s ∨ x ∈ p := by
  induction p generalizing s with
  | nil => simp
  | cons a as ih =>
    simp [List.foldl_cons, ih, mem_insert_or_replace, or_assoc]

/-- One upsert row write keeps the table duplicate-free. -/
theorem nodup_insert_or_replace (s : List String) (n : String) (h : s.Nodup) :
    (insert_or_replace s n).Nodup := by
  unfold insert_or_replace
  by_cases hn : n ∈ s
  · simpa [if_pos hn]
  · simp [if_neg hn, List.nodup_append, h, hn]

/-- A whole batch of upsert row writes keeps the table duplicate-free. -/
theorem nodup_foldl_insert_or_replace (p s : List String) (h : s.Nodup) :
    (p.foldl insert_or_replace s).Nodup := by
  induction p generalizing s with
  | nil => simpa
  | cons a as ih => exact ih _ (nodup_insert_or_replace _ _ h)

/-- Characterization of a fully successful pipeline run: the final table
is the left fold of the batches, one progress event is yielded per page
(empty ones included), and one write transaction is executed per
non-empty page. -/
theorem save_all_ok_run (pages : List (List String)) (store : List String) :
    save_all_repositories (fun _ => false) store (pages.map Except.ok) =
      ⟨pages.foldl (fun s p => p.foldl insert_or_replace s) store,
       pages.length,
       (pages.filter (fun p => !p.isEmpty)).length,
       none⟩ := by
  induction pages generalizing store with
  | nil => rfl
  | cons p rest ih =>
    by_cases hp : p.isEmpty
    · have hpnil : p = [] := List.isEmpty_iff.mp hp
      simp [save_all_repositories, save_repositories, hp, ih, hpnil]
    · simp [save_all_repositories, save_repositories, hp, ih]

/-! ## Helper lemmas about the cache read path -/

/-- The two cache search queries are the same function of the table. -/
theorem search_crates_eq_search_repositories :
    search_crates = search_repositories := rfl

/-- Soundness, non-emptiness and emptiness of the cache search, phrased
through the LIKE predicate the query evaluates. -/
theorem search_repositories_spec (store : List String) (f : String) :
    (∀ x ∈ search_repositories store f, x ∈ store ∧ nameLike f x = true) ∧
    ((∃ key ∈ store, nameLike f key = true) →
      (search_repositories store f).isEmpty = false) ∧
    ((∀ key ∈ store, nameLike f key = false) →
      search_repositories store f = []) := by
  refine ⟨?_, ?_, ?_⟩
  · intro x hx
    have hxf : x ∈ store.filter (fun n => nameLike f n) :=
      List.take_subset 5 _ hx
    have := List.mem_filter.mp hxf
    exact ⟨this.1, this.2⟩
  · rintro ⟨key, hk, hpk⟩
    have hf : store.filter (fun n => nameLike f n) ≠ [] := by
      intro hnil
      have := List.filter_eq_nil_iff.mp hnil key hk
      simp [hpk] at this
    unfold search_repositories
    cases hfe : store.filter (fun n => nameLike f n) with
    | nil => exact absurd hfe hf
    | cons a as => simp [hfe]
  · intro hall
    unfold search_repositories
    have : store.filter (fun n => nameLike f n) = [] :=
      List.filter_eq_nil_iff.mpr (by intro a ha; simp [hall a ha])
    simp [this]

/-! ## Claim theorems -/

/-- C1: the staleness check of `GhAlfredConfig::should_update_db` is meant
to return true iff the timestamp is empty or more than 30 minutes in the
past.  The code indeed returns true for an empty timestamp and false
immediately after `update_last_update_start_time`, but it compares
`time - now` instead of `now - time`, so for a timestamp 31 minutes old
(and even arbitrarily older) it still returns false while the contract
`should_refresh` requires true. -/
theorem should_update_db_reversed_comparison :
    should_update_db none 0 = true ∧
    should_update_db (update_last_update_start_time 0) 0 = false ∧
    should_update_db (some (-31)) 0 = false ∧
    should_refresh (some (-31)) 0 = true ∧
    should_update_db (some (-1000000)) 0 = false ∧
    should_refresh (some (-1000000)) 0 = true := by decide

/-- C2: both resolvers are cache-first.  When the cache table holds at
least one key matching the filter (under the LIKE predicate its query
evaluates), the resolver answers from the cache only and the live search
collaborator is not called; when no key matches, the resolver returns the
live collaborator's reply unchanged. -/
theorem resolver_cache_first_fallback (repos crates live : List String) (f : String) :
    ((∃ key ∈ repos, nameLike f key = true) →
      (search_gh_repositories repos live f).liveCalled = false ∧
      ∀ x ∈ (search_gh_repositories repos live f).results,
        x ∈ repos ∧ nameLike f x = true) ∧
    ((∀ key ∈ repos, nameLike f key = false) →
      search_gh_repositories repos live f = ⟨live, true⟩) ∧
    ((∃ key ∈ crates, nameLike f key = true) →
      (search_crate crates live f).liveCalled = false ∧
      ∀ x ∈ (search_crate crates live f).results,
        x ∈ crates ∧ nameLike f x = true) ∧
    ((∀ key ∈ crates, nameLike f key = false) →
      search_crate crates live f = ⟨live, true⟩) := by
  obtain ⟨hsound, hne, hnil⟩ := search_repositories_spec repos f
  obtain ⟨hsoundc, hnec, hnilc⟩ := search_repositories_spec crates f
  refine ⟨?_, ?_, ?_, ?_⟩
  · intro h
    unfold search_gh_repositories
    simp only [hne h]
    exact ⟨rfl, hsound⟩
  · intro h
    unfold search_gh_repositories
    simp [hnil h]
  · intro h
    unfold search_crate
    simp only [search_crates_eq_search_repositories, hnec h]
    exact ⟨rfl, hsoundc⟩
  · intro h
    unfold search_crate
    simp [search_crates_eq_search_repositories, hnilc h]

/-- Witness for C2 at concrete inputs, covering the four cases. -/
theorem resolver_cache_first_fallback_witness :
    (search_gh_repositories ["serde-rs"] ["live-a"] "serde").liveCalled = false ∧
    search_gh_repositories [] ["octocat"] "octo" = ⟨["octocat"], true⟩ ∧
    (search_crate ["tokio-rs"] ["live-b"] "tokio").liveCalled = false ∧
    search_crate [] ["octocat"] "octo" = ⟨["octocat"], true⟩ := by
  have h := resolver_cache_first_fallback ["serde-rs"] ["tokio-rs"] ["live-a"] "serde"
  have h2 := resolver_cache_first_fallback [] [] ["octocat"] "octo"
  have h3 := resolver_cache_first_fallback ["serde-rs"] ["tokio-rs"] ["live-b"] "tokio"
  refine ⟨(h.1 ⟨"serde-rs", by decide, by decide⟩).1,
          h2.2.1 (by decide),
          (h3.2.2.1 ⟨"tokio-rs", by decide, by decide⟩).1,
          h2.2.2.2 (by decide)⟩

/-- C3 counterexample: the cache search is not literal case-sensitive
substring matching.  The filter is interpolated into a LIKE pattern, so
the wildcard in the filter `a_` makes it return the row `ab`, and sqlite
LIKE folds ASCII case, so the filter `serde` returns the row `Serde`;
neither row contains its filter as a case-sensitive substring. -/
theorem cache_search_not_literal_substring :
    search_repositories ["ab"] "a_" = ["ab"] ∧
    containsSubstr "ab" "a_" = false ∧
    search_crates ["Serde"] "serde" = ["Serde"] ∧
    containsSubstr "Serde" "serde" = false := by decide

/-- C3 as amended: for every filter, the cache search returns exactly the
stored rows whose name LIKE-matches the pattern built from the filter
(wildcards interpreted, ASCII case folded), capped at 5 results; when at
most 5 rows match it returns all of them. -/
theorem cache_search_like_semantics (store : List String) (f : String) :
    (search_repositories store f).length ≤ 5 ∧
    (∀ x ∈ search_repositories store f, x ∈ store ∧ nameLike f x = true) ∧
    ((store.filter (fun n => nameLike f n)).length ≤ 5 →
      search_repositories store f = store.filter (fun n => nameLike f n)) ∧
    search_crates store f = search_repositories store f := by
  refine ⟨?_, (search_repositories_spec store f).1, ?_, rfl⟩
  · unfold search_repositories
    have := List.length_take 5 (store.filter (fun n => nameLike f n))
    omega
  · intro h
    unfold search_repositories
    exact List.take_of_length_le h

/-- Witness for C3's amended theorem at concrete inputs. -/
theorem cache_search_like_semantics_witness :
    search_repositories ["ab", "cd", "axe"] "a" = ["ab", "axe"] := by
  have h := (cache_search_like_semantics ["ab", "cd", "axe"] "a").2.2.1 (by decide)
  simpa using h

/-- C4 counterexample: a run over the single page `[]` performs no
database write, yet still yields one `DBUpdateEvent` progress signal,
contradicting the claim that no signal is emitted for an empty page. -/
theorem empty_page_emits_progress_event :
    save_all_repositories (fun _ => false) [] [Except.ok []] =
      ⟨[], 1, 0, none⟩ ∧
    (save_all_repositories (fun _ => false) [] [Except.ok []]).events ≠ 0 := by
  exact ⟨by decide, by decide⟩

/-- C4 as amended: in a run with no errors, an empty page performs no
database write (writes count only non-empty pages), but a progress signal
is emitted after every page consumed, empty pages included. -/
theorem sync_run_event_write_counts (pages : List (List String)) (store : List String) :
    (save_all_repositories (fun _ => false) store (pages.map Except.ok)).events =
      pages.length ∧
    (save_all_repositories (fun _ => false) store (pages.map Except.ok)).writes =
      (pages.filter (fun p => !p.isEmpty)).length ∧
    (save_all_repositories (fun _ => false) store (pages.map Except.ok)).error = none := by
  simp [save_all_ok_run]

/-- C5 counterexample: `clear_db` leaves the crates table untouched, so
the bulk clear does not truncate both collections. -/
theorem clear_leaves_crates_table :
    (clear_db ⟨⟨["repo1"], ["crate1"]⟩, some 5⟩).db.crates = ["crate1"] ∧
    (clear_db ⟨⟨["repo1"], ["crate1"]⟩, some 5⟩).db.crates ≠ [] := by
  exact ⟨by decide, by decide⟩

/-- C5 as amended: the bulk clear truncates only the repositories table,
leaves the crates table unchanged, and the reset command also resets the
config record's last-update timestamp to empty. -/
theorem clear_db_repos_only (s : AppState) :
    (clear_db s).db.repos = [] ∧
    (clear_db s).db.crates = s.db.crates ∧
    (clear_db s).last_update_start_time = none := by
  simp [clear_db, DBClient.clear, reset_last_update_start_time]

/-- C6: the fetcher's rate-limit policy.  While `remaining - cost > 0` no
delay is computed; once the budget is exhausted the computed delay is
`reset_at - now` when that is positive, and the sleep in the streaming
loop lasts a positive duration exactly when the budget is exhausted and
`reset_at` is still in the future — a non-positive difference results in
no waiting. -/
theorem rate_limit_delay_policy (remaining cost reset_at now : Int) :
    (remaining - cost > 0 → compute_delay remaining cost reset_at now = none) ∧
    (remaining - cost ≤ 0 →
      (reset_at - now > 0 →
        compute_delay remaining cost reset_at now = some (reset_at - now)) ∧
      (reset_at - now ≤ 0 → wait_time remaining cost reset_at now = 0)) ∧
    (0 < wait_time remaining cost reset_at now ↔
      remaining - cost ≤ 0 ∧ 0 < reset_at - now) := by
  by_cases h : remaining - cost > 0 <;>
    by_cases h2 : (0 : Int) ≤ reset_at - now <;>
      simp [compute_delay, wait_time, h, h2] <;> omega

/-- Witness for C6 at concrete inputs, covering the three regimes. -/
theorem rate_limit_delay_policy_witness :
    compute_delay 5 1 99 0 = none ∧
    compute_delay 0 1 5 3 = some 2 ∧
    wait_time 0 1 3 5 = 0 := by
  have h1 := rate_limit_delay_policy 5 1 99 0
  have h2 := rate_limit_delay_policy 0 1 5 3
  have h3 := rate_limit_delay_policy 0 1 3 5
  exact ⟨h1.1 (by decide), (h2.2.1 (by decide)).1 (by decide),
    (h3.2.1 (by decide)).2 (by decide)⟩

/-- A scripted fetch collaborator: the first call (no cursor) answers with
cursor A, the call with cursor A answers with cursor B, and the call with
cursor B answers with an empty cursor. -/
def scripted_fetch (p1 p2 p3 : List String) :
    Option String → Except String RepoPageRead
  | none => Except.ok ⟨p1, some "A", none⟩
  | some "A" => Except.ok ⟨p2, some "B", none⟩
  | some "B" => Except.ok ⟨p3, none, none⟩
  | some _ => Except.error "unexpected cursor"

/-- C7 counterexample: with the scripted collaborator returning the cursor
sequence A, B, empty, the stream yields three pages, not two — each
response's page is yielded before its cursor is inspected, so the page
carrying the empty cursor is also yielded. -/
theorem scripted_cursors_yield_three_pages :
    (stream_repositories (scripted_fetch ["r1"] ["r2"] ["r3"]) 10 none).length = 3 ∧
    (stream_repositories (scripted_fetch ["r1"] ["r2"] ["r3"]) 10 none).length ≠ 2 := by
  exact ⟨by decide, by decide⟩

/-- C7 as amended: the page sequence ends normally exactly when a fetched
page's cursor is empty, that page included in the yield; in particular
the A, B, empty script yields exactly its three pages and stops, an
empty-cursor response ends the stream right after its page, and a
non-empty cursor makes the stream continue from that cursor. -/
theorem stream_stops_on_empty_cursor (p1 p2 p3 : List String) (fuel fuel2 : Nat)
    (fetch : Option String → Except String RepoPageRead) (after : Option String)
    (page : RepoPageRead) (c : String)
    (h : 3 ≤ fuel) (hf : fetch after = Except.ok page) :
    stream_repositories (scripted_fetch p1 p2 p3) fuel none =
      [Except.ok p1, Except.ok p2, Except.ok p3] ∧
    (page.end_cursor = none →
      stream_repositories fetch (fuel2 + 1) after = [Except.ok page.repos]) ∧
    (page.end_cursor = some c →
      stream_repositories fetch (fuel2 + 1) after =
        Except.ok page.repos :: stream_repositories fetch fuel2 (some c)) := by
  obtain ⟨k, rfl⟩ : ∃ k, fuel = k + 3 := ⟨fuel - 3, by omega⟩
  refine ⟨?_, ?_, ?_⟩
  · simp [stream_repositories, scripted_fetch]
  · intro hc
    simp [stream_repositories, hf, hc]
  · intro hc
    simp [stream_repositories, hf, hc]

/-- Witness for C7's amended theorem at concrete inputs. -/
theorem stream_stops_on_empty_cursor_witness :
    stream_repositories (scripted_fetch ["r1"] ["r2"] ["r3"]) 9 none =
      [Except.ok ["r1"], Except.ok ["r2"], Except.ok ["r3"]] ∧
    stream_repositories (scripted_fetch ["r1"] ["r2"] ["r3"]) 6 (some "B") =
      [Except.ok ["r3"]] ∧
    stream_repositories (scripted_fetch ["r1"] ["r2"] ["r3"]) 6 none =
      Except.ok ["r1"] ::
        stream_repositories (scripted_fetch ["r1"] ["r2"] ["r3"]) 5 (some "A") := by
  have h1 := stream_stops_on_empty_cursor ["r1"] ["r2"] ["r3"] 9 5
    (scripted_fetch ["r1"] ["r2"] ["r3"]) (some "B") ⟨["r3"], none, none⟩ "X"
    (by omega) rfl
  have h2 := stream_stops_on_empty_cursor ["r1"] ["r2"] ["r3"] 9 5
    (scripted_fetch ["r1"] ["r2"] ["r3"]) none ⟨["r1"], some "A", none⟩ "A"
    (by omega) rfl
  exact ⟨h1.1, h1.2.1 rfl, h2.2.2 rfl⟩

/-- The run fold of successful batches keeps the table duplicate-free. -/
theorem nodup_run_fold (pages : List (List String)) (store : List String)
    (h : store.Nodup) :
    (pages.foldl (fun s p => p.foldl insert_or_replace s) store).Nodup := by
  induction pages generalizing store with
  | nil => simpa
  | cons p rest ih => exact ih _ (nodup_foldl_insert_or_replace _ _ h)

/-- Membership in the run fold of successful batches. -/
theorem mem_run_fold (pages : List (List String)) (store : List String) (x : String) :
    x ∈ pages.foldl (fun s p => p.foldl insert_or_replace s) store ↔
      x ∈ store ∨ ∃ p ∈ pages, x ∈ p := by
  induction pages generalizing store with
  | nil => simp
  | cons p rest ih =>
    simp only [List.foldl_cons, ih, mem_foldl_insert_or_replace, List.mem_cons]
    constructor
    · rintro ((hs | hp) | ⟨q, hq, hx⟩)
      · exact Or.inl hs
      · exact Or.inr ⟨p, Or.inl rfl, hp⟩
      · exact Or.inr ⟨q, Or.inr hq, hx⟩
    · rintro (hs | ⟨q, rfl | hq, hx⟩)
      · exact Or.inl (Or.inl hs)
      · exact Or.inl (Or.inr hx)
      · exact Or.inr ⟨q, hq, hx⟩

/-- C8: persisting the same name any number of times — inside one batch,
across batches of one run, or with the name already present before the
run — leaves exactly one row with that key, and the table stays
duplicate-free throughout. -/
theorem upsert_no_duplicate_keys (store : List String) (pages : List (List String))
    (name : String) (hnd : store.Nodup)
    (hmem : name ∈ store ∨ ∃ p ∈ pages, name ∈ p) :
    (save_all_repositories (fun _ => false) store (pages.map Except.ok)).store.Nodup ∧
    (save_all_repositories (fun _ => false) store (pages.map Except.ok)).store.count name
      = 1 := by
  rw [save_all_ok_run]
  have h1 := nodup_run_fold pages store hnd
  exact ⟨h1, List.count_eq_one_of_mem h1 ((mem_run_fold pages store name).mpr hmem)⟩

/-- Witness for C8 at concrete inputs: the name is saved twice in one
batch and once more in a later batch, and ends up stored once. -/
theorem upsert_no_duplicate_keys_witness :
    (save_all_repositories (fun _ => false) ["a"]
      ([["b", "b"], ["b"]].map Except.ok)).store.count "b" = 1 := by
  exact (upsert_no_duplicate_keys ["a"] [["b", "b"], ["b"]] "b" (by decide)
    (Or.inr ⟨["b", "b"], by decide, by decide⟩)).2

/-- C9: when persisting the second of three pages fails, the run aborts
with that page's error, exactly one progress event was yielded, and the
store afterwards holds exactly the first page's entities — committed
batches stay durable. -/
theorem partial_failure_durability (persist_fails : List String → Bool)
    (p1 p2 p3 : List String)
    (h1 : persist_fails p1 = false) (h2 : persist_fails p2 = true)
    (hne : p2.isEmpty = false) :
    (save_all_repositories persist_fails []
        [Except.ok p1, Except.ok p2, Except.ok p3]).error =
      some "failed to save repositories" ∧
    (∀ x, x ∈ (save_all_repositories persist_fails []
        [Except.ok p1, Except.ok p2, Except.ok p3]).store ↔ x ∈ p1) ∧
    (save_all_repositories persist_fails []
        [Except.ok p1, Except.ok p2, Except.ok p3]).events = 1 := by
  by_cases hp1 : p1.isEmpty
  · have hnil : p1 = [] := List.isEmpty_iff.mp hp1
    subst hnil
    simp [save_all_repositories, save_repositories, hne, h2]
  · simp [save_all_repositories, save_repositories, hp1, h1, hne, h2,
      mem_foldl_insert_or_replace]

/-- Witness for C9 at concrete inputs. -/
theorem partial_failure_durability_witness :
    (save_all_repositories (fun l => l == ["b"]) []
        [Except.ok ["a"], Except.ok ["b"], Except.ok ["c"]]).error =
      some "failed to save repositories" ∧
    "a" ∈ (save_all_repositories (fun l => l == ["b"]) []
        [Except.ok ["a"], Except.ok ["b"], Except.ok ["c"]]).store ∧
    (save_all_repositories (fun l => l == ["b"]) []
        [Except.ok ["a"], Except.ok ["b"], Except.ok ["c"]]).events = 1 := by
  have h := partial_failure_durability (fun l => l == ["b"]) ["a"] ["b"] ["c"]
    (by decide) (by decide) (by decide)
  exact ⟨h.1, (h.2.1 "a").mpr (by decide), h.2.2⟩

/-- C10: the filter is interpolated unescaped into the LIKE pattern, so a
filter containing a wildcard returns rows that do not contain it as a
literal substring: `_` matches any single character and `%` matches any
character sequence. -/
theorem like_wildcard_unescaped :
    search_repositories ["hello"] "h_llo" = ["hello"] ∧
    containsSubstr "hello" "h_llo" = false ∧
    search_crates ["say hello"] "s%o" = ["say hello"] ∧
    containsSubstr "say hello" "s%o" = false := by decide

end AlfredSearch
